import Mathlib

/-!
Verification of the UEFI variable-services enumeration core
(`src/runtime_services/src/variable_services.rs`).

The embedding models:
- `VariableIdentifier` (name: `Vec<u16>` as `List Nat`; namespace: `efi::Guid`,
  16 bytes, as `List Nat`);
- `GetVariableStatus`, the tri-state fetch result;
- `VariableNameIterator` with its constructors `new_from_first` /
  `new_from_variable` and the `FallibleStreamingIterator` operations
  `advance` / `get`.

The external Collaborator (`get_next_variable_name_unchecked`, a method of the
`RuntimeServices` trait whose implementation lives outside this file's source)
is modelled as a function parameter: given the previous key and the present
contents of the output buffer pair, it returns the call status together with
the post-call contents of the output buffer pair.
-/

namespace VariableServices

/-- EFI status codes as far as this core distinguishes them: `NOT_FOUND` and
`BUFFER_TOO_SMALL` are the two distinguished codes; every other status is
carried opaquely. -/
inductive Status where
  | NOT_FOUND : Status
  | BUFFER_TOO_SMALL : Status
  | other : Nat → Status
deriving DecidableEq

/-- Rust `Result<(), efi::Status>`: `Ok(())` or `Err(status)`. -/
abbrev CallResult := Except Status Unit

/-- Uniquely identifies a UEFI variable: `name` is a sequence of 16-bit code
units (`Vec<u16>`), `namespace` a 128-bit GUID kept as its 16 bytes. -/
structure VariableIdentifier where
  name : List Nat
  «namespace» : List Nat
deriving DecidableEq

/-- The all-zero GUID, `Guid::from_bytes(&[0x0; 16])`. -/
def zeroGuid : List Nat := List.replicate 16 0

/-- The sentinel identifier `new_from_first` anchors at: a single zero code
unit with the all-zero namespace. -/
def sentinelId : VariableIdentifier := ⟨[0], zeroGuid⟩

/-- Status information returned by `RuntimeServices::get_variable_unchecked`. -/
inductive GetVariableStatus where
  | Error : Status → GetVariableStatus
  | BufferTooSmall : (data_size : Nat) → (attributes : Nat) → GetVariableStatus
  | Success : (data_size : Nat) → (attributes : Nat) → GetVariableStatus
deriving DecidableEq

/-- The state of a `VariableNameIterator`: the `rs` collaborator reference is
passed to `advance` as a parameter instead of being stored. -/
structure VariableNameIterator where
  current : VariableIdentifier
  next : VariableIdentifier
  finished : Bool
deriving DecidableEq

/-- The Collaborator capability `get_next_variable_name_unchecked`: takes the
previous key and the current contents of the output buffer pair, returns the
call status and the post-call contents of the output buffer pair (which the
iterator then swaps into `current`). -/
abbrev Collaborator := VariableIdentifier → VariableIdentifier → CallResult × VariableIdentifier

namespace VariableNameIterator

/-- Produce a new iterator from the beginning of the UEFI variable list:
`current` holds the one-zero-code-unit sentinel name with the all-zero GUID,
`next` an empty scratch pair. -/
def new_from_first : VariableNameIterator :=
  { current := { name := [0], «namespace» := zeroGuid },
    next := { name := [], «namespace» := zeroGuid },
    finished := false }

/-- Produce a new iterator, starting from a given variable. -/
def new_from_variable (name : List Nat) (ns : List Nat) : VariableNameIterator :=
  { current := { name := name, «namespace» := ns },
    next := { name := [], «namespace» := zeroGuid },
    finished := false }

/-- Rust `status.is_err() && status.unwrap_err() == efi::Status::NOT_FOUND`. -/
def isNotFound : CallResult → Bool
  | Except.error Status.NOT_FOUND => true
  | _ => false

/-- `FallibleStreamingIterator::advance`: no-op when finished; otherwise call
the Collaborator with `current` as the previous key and the `next` buffers as
output, `mem::swap` the two identifier pairs, then translate `NOT_FOUND` into
exhaustion-with-success and return every other status verbatim. -/
def advance (rs : Collaborator) (it : VariableNameIterator) : CallResult × VariableNameIterator :=
  if it.finished then (Except.ok (), it)
  else
    let r := rs it.current it.next
    if isNotFound r.1 then (Except.ok (), ⟨r.2, it.current, true⟩)
    else (r.1, ⟨r.2, it.current, it.finished⟩)

/-- `FallibleStreamingIterator::get`. -/
def get (it : VariableNameIterator) : Option VariableIdentifier :=
  if it.finished then none else some it.current

end VariableNameIterator

open VariableNameIterator

/-- Drive the iterator: perform `n` advances, recording after each one the
status `advance` returned and what `get` then yields. -/
def runIter (rs : Collaborator) : VariableNameIterator → Nat → List (CallResult × Option VariableIdentifier)
  | _, 0 => []
  | it, n + 1 =>
    ((advance rs it).1, get (advance rs it).2) :: runIter rs (advance rs it).2 n

/-- Modelled from the spec: the store order behind the Collaborator. Given the
list of stored identifiers, return the one that follows the first occurrence
of `p`, if any. -/
def succAfter : List VariableIdentifier → VariableIdentifier → Option VariableIdentifier
  | [], _ => none
  | x :: rest, p => if x = p then rest.head? else succAfter rest p

/-- Modelled from the spec: the Collaborator's next-key lookup. The sentinel
previous key requests the first stored identifier; otherwise the successor of
the previous key in store order. -/
def nextOf (vars : List VariableIdentifier) (prev : VariableIdentifier) : Option VariableIdentifier :=
  if prev = sentinelId then vars.head? else succAfter vars prev

/-- Modelled from the spec: a well-behaved Collaborator
(`get_next_variable_name_unchecked`, whose implementation is not under the
given sources) over a store holding `vars` in enumeration order: writes the
next key into the output buffers and succeeds, or fails with `NOT_FOUND` at
the end of the sequence, leaving the output buffers as they were. -/
def storeCollab (vars : List VariableIdentifier) : Collaborator :=
  fun prev scratch =>
    match nextOf vars prev with
    | some v => (Except.ok (), v)
    | none => (Except.error Status.NOT_FOUND, scratch)

/-- Modelled from the spec: `RuntimeServices::get_variable_unchecked`, whose
implementation is not under the given sources. The store maps an identifier to
its data bytes and attributes; the fetch copies the data when the caller's
buffer capacity suffices, and otherwise reports the required size and the
attributes without copying. -/
def get_variable (store : VariableIdentifier → Option (List Nat × Nat))
    (name ns : List Nat) (bufferCapacity : Nat) : GetVariableStatus :=
  match store ⟨name, ns⟩ with
  | none => GetVariableStatus.Error Status.NOT_FOUND
  | some (data, attrs) =>
    if bufferCapacity < data.length then GetVariableStatus.BufferTooSmall data.length attrs
    else GetVariableStatus.Success data.length attrs

/-- Concrete identifiers for witnesses. -/
def idA : VariableIdentifier := ⟨[65], zeroGuid⟩

def idB : VariableIdentifier := ⟨[66, 67], 1 :: List.replicate 15 0⟩

/-! ### Helper lemmas about `advance`, `get` and `runIter` -/

theorem advance_of_finished (rs : Collaborator) (it : VariableNameIterator)
    (h : it.finished = true) : advance rs it = (Except.ok (), it) := by
  simp [advance, h]

theorem get_of_finished (it : VariableNameIterator) (h : it.finished = true) :
    get it = none := by
  simp [VariableNameIterator.get, h]

theorem runIter_of_finished (rs : Collaborator) (it : VariableNameIterator)
    (h : it.finished = true) :
    ∀ n, runIter rs it n = List.replicate n ((Except.ok () : CallResult), none)
  | 0 => rfl
  | n + 1 => by
    simp only [runIter, advance_of_finished rs it h, get_of_finished it h,
      runIter_of_finished rs it h n, List.replicate]

theorem isNotFound_ok : isNotFound (Except.ok ()) = false := rfl

theorem isNotFound_error_of_ne (e : Status) (hne : e ≠ Status.NOT_FOUND) :
    isNotFound (Except.error e) = false := by
  cases e with
  | NOT_FOUND => exact absurd rfl hne
  | BUFFER_TOO_SMALL => rfl
  | other c => rfl

theorem advance_ok (rs : Collaborator) (it : VariableNameIterator) (w : VariableIdentifier)
    (hfin : it.finished = false) (hr : rs it.current it.next = (Except.ok (), w)) :
    advance rs it = (Except.ok (), ⟨w, it.current, false⟩) := by
  simp [advance, hfin, hr, isNotFound]

theorem advance_notFound (rs : Collaborator) (it : VariableNameIterator) (w : VariableIdentifier)
    (hfin : it.finished = false)
    (hr : rs it.current it.next = (Except.error Status.NOT_FOUND, w)) :
    advance rs it = (Except.ok (), ⟨w, it.current, true⟩) := by
  simp [advance, hfin, hr, isNotFound]

theorem advance_err (rs : Collaborator) (it : VariableNameIterator) (e : Status)
    (w : VariableIdentifier) (hfin : it.finished = false)
    (hr : rs it.current it.next = (Except.error e, w)) (hne : e ≠ Status.NOT_FOUND) :
    advance rs it = (Except.error e, ⟨w, it.current, false⟩) := by
  simp [advance, hfin, hr, isNotFound_error_of_ne e hne]

/-! ### The store model's successor function -/

theorem succAfter_append (pre suf : List VariableIdentifier) (v : VariableIdentifier)
    (h : v ∉ pre) : succAfter (pre ++ v :: suf) v = suf.head? := by
  induction pre with
  | nil => simp [succAfter]
  | cons a pre ih =>
    have ha : ¬ a = v := fun he => h (he ▸ List.mem_cons_self a pre)
    have h' : v ∉ pre := fun hm => h (List.mem_cons_of_mem a hm)
    simp only [List.cons_append, succAfter, if_neg ha]
    exact ih h'

theorem not_mem_left_of_nodup_append (pre suf : List VariableIdentifier)
    (v : VariableIdentifier) (h : (pre ++ v :: suf).Nodup) : v ∉ pre :=
  fun hm => (List.disjoint_of_nodup_append h) hm (List.mem_cons_self v suf)

/-- The central invariant of enumeration: if the iterator is positioned on the
identifier `v`, the store being `pre ++ v :: suf` with no duplicates and no
stored sentinel, then driving it `suf.length + 1 + k` more steps yields
exactly the identifiers of `suf` in order, then `k + 1` end-of-sequence
signals, all with successful statuses. -/
theorem runIter_mid (vars : List VariableIdentifier) (hnd : vars.Nodup)
    (hs : sentinelId ∉ vars) :
    ∀ (suf pre : List VariableIdentifier) (v : VariableIdentifier)
      (it : VariableNameIterator) (k : Nat),
      vars = pre ++ v :: suf → it.current = v → it.finished = false →
      runIter (storeCollab vars) it (suf.length + 1 + k) =
        suf.map (fun w => ((Except.ok () : CallResult), some w)) ++
          List.replicate (k + 1) ((Except.ok () : CallResult), none) := by
  intro suf
  induction suf with
  | nil =>
    intro pre v it k hv hcur hfin
    have hvpre : v ∉ pre := not_mem_left_of_nodup_append pre [] v (hv ▸ hnd)
    have hvmem : v ∈ vars := by
      rw [hv]; exact List.mem_append.mpr (Or.inr (List.mem_cons_self v []))
    have hvne : ¬ v = sentinelId := fun he => hs (he ▸ hvmem)
    have hnext : nextOf vars v = none := by
      rw [nextOf, if_neg hvne, hv, succAfter_append pre [] v hvpre]; rfl
    have hcall : storeCollab vars it.current it.next =
        (Except.error Status.NOT_FOUND, it.next) := by
      rw [hcur]; simp [storeCollab, hnext]
    have hadv := advance_notFound (storeCollab vars) it it.next hfin hcall
    have hlen : ([] : List VariableIdentifier).length + 1 + k = k + 1 := by simp; omega
    rw [hlen]
    simp only [runIter, hadv]
    rw [runIter_of_finished (storeCollab vars) ⟨it.next, it.current, true⟩ rfl k]
    simp [VariableNameIterator.get, List.replicate_succ]
  | cons w suf2 ih =>
    intro pre v it k hv hcur hfin
    have hvpre : v ∉ pre := not_mem_left_of_nodup_append pre (w :: suf2) v (hv ▸ hnd)
    have hvmem : v ∈ vars := by
      rw [hv]; exact List.mem_append.mpr (Or.inr (List.mem_cons_self v (w :: suf2)))
    have hvne : ¬ v = sentinelId := fun he => hs (he ▸ hvmem)
    have hnext : nextOf vars v = some w := by
      rw [nextOf, if_neg hvne, hv, succAfter_append pre (w :: suf2) v hvpre]; rfl
    have hcall : storeCollab vars it.current it.next = (Except.ok (), w) := by
      rw [hcur]; simp [storeCollab, hnext]
    have hadv := advance_ok (storeCollab vars) it w hfin hcall
    have hih := ih (pre ++ [v]) w ⟨w, it.current, false⟩ k
      (by rw [hv]; simp) rfl rfl
    have hlen : (w :: suf2).length + 1 + k = (suf2.length + 1 + k) + 1 := by
      simp [List.length_cons]; omega
    rw [hlen]
    simp only [runIter, hadv]
    rw [hih]
    simp [VariableNameIterator.get]

/-! ### Claim theorems -/

/-- C1: for a store containing `n` variables reachable from the start anchor,
an iterator built with `new_from_first`, advanced repeatedly, yields exactly
those `n` identifiers in the order the Collaborator presents them, followed by
exactly one end-of-sequence signal (`get` returning `none` after a successful
advance), and every further advance keeps signaling end-of-sequence without
error. -/
theorem fromFirst_yields_all_then_end (vars : List VariableIdentifier) (k : Nat)
    (hnd : vars.Nodup) (hs : sentinelId ∉ vars) :
    runIter (storeCollab vars) new_from_first (vars.length + 1 + k) =
      vars.map (fun w => ((Except.ok () : CallResult), some w)) ++
        List.replicate (k + 1) ((Except.ok () : CallResult), none) := by
  cases vars with
  | nil =>
    have hnext : nextOf [] new_from_first.current = none := by
      simp [nextOf, succAfter]
    have hcall : storeCollab [] new_from_first.current new_from_first.next =
        (Except.error Status.NOT_FOUND, new_from_first.next) := by
      simp [storeCollab, hnext]
    have hadv := advance_notFound (storeCollab []) new_from_first
      new_from_first.next rfl hcall
    have hlen : ([] : List VariableIdentifier).length + 1 + k = k + 1 := by
      simp; omega
    rw [hlen]
    simp only [runIter, hadv]
    rw [runIter_of_finished (storeCollab [])
      ⟨new_from_first.next, new_from_first.current, true⟩ rfl k]
    simp [VariableNameIterator.get, List.replicate_succ]
  | cons v rest =>
    have hsent : new_from_first.current = sentinelId := rfl
    have hnext : nextOf (v :: rest) new_from_first.current = some v := by
      rw [hsent]; simp [nextOf]
    have hcall : storeCollab (v :: rest) new_from_first.current new_from_first.next =
        (Except.ok (), v) := by
      simp [storeCollab, hnext]
    have hadv := advance_ok (storeCollab (v :: rest)) new_from_first v rfl hcall
    have hih := runIter_mid (v :: rest) hnd hs rest [] v
      ⟨v, new_from_first.current, false⟩ k (by simp) rfl rfl
    have hlen : (v :: rest).length + 1 + k = (rest.length + 1 + k) + 1 := by
      simp [List.length_cons]; omega
    rw [hlen]
    simp only [runIter, hadv]
    rw [hih]
    simp [VariableNameIterator.get]

/-- C1 witness at the two-variable store `[idA, idB]`. -/
theorem fromFirst_yields_all_then_end_witness :
    runIter (storeCollab [idA, idB]) new_from_first ([idA, idB].length + 1 + 0) =
      [idA, idB].map (fun w => ((Except.ok () : CallResult), some w)) ++
        List.replicate (0 + 1) ((Except.ok () : CallResult), none) :=
  fromFirst_yields_all_then_end [idA, idB] 0 (by decide) (by decide)

/-- C2: an iterator built with `new_from_variable` at a known existing
identifier `X` (the store being `pre ++ X :: suf`) yields exactly the strict
suffix `suf` that follows `X` in store order, never `X` itself, followed by
the same end-of-sequence behavior as a from-first iterator. -/
theorem fromVariable_yields_strict_suffix (vars pre suf : List VariableIdentifier)
    (X : VariableIdentifier) (k : Nat) (hv : vars = pre ++ X :: suf)
    (hnd : vars.Nodup) (hs : sentinelId ∉ vars) :
    runIter (storeCollab vars) (new_from_variable X.name X.«namespace»)
        (suf.length + 1 + k) =
      suf.map (fun w => ((Except.ok () : CallResult), some w)) ++
        List.replicate (k + 1) ((Except.ok () : CallResult), none) :=
  runIter_mid vars hnd hs suf pre X (new_from_variable X.name X.«namespace») k
    hv rfl rfl

/-- C2 witness: anchored at `idA` in the store `[idA, idB]`, the iterator
yields only `idB` and then ends. -/
theorem fromVariable_yields_strict_suffix_witness :
    runIter (storeCollab [idA, idB]) (new_from_variable idA.name idA.«namespace»)
        ([idB].length + 1 + 0) =
      [idB].map (fun w => ((Except.ok () : CallResult), some w)) ++
        List.replicate (0 + 1) ((Except.ok () : CallResult), none) :=
  fromVariable_yields_strict_suffix [idA, idB] [] [idB] idA 0 rfl
    (by decide) (by decide)

/-- C3: on a `NOT_FOUND` status from the Collaborator, `advance` transitions
to the exhausted state and returns success; on any other error status it
returns that status verbatim and does not transition to exhausted; the
exhausted state is reached only by the `NOT_FOUND` signal. -/
theorem advance_translates_notFound_propagates_errors (rs : Collaborator)
    (it : VariableNameIterator) (hfin : it.finished = false) :
    (∀ w, rs it.current it.next = (Except.error Status.NOT_FOUND, w) →
      advance rs it = (Except.ok (), ⟨w, it.current, true⟩)) ∧
    (∀ e w, rs it.current it.next = (Except.error e, w) → e ≠ Status.NOT_FOUND →
      advance rs it = (Except.error e, ⟨w, it.current, false⟩)) ∧
    (∀ r w, rs it.current it.next = (r, w) → (advance rs it).2.finished = true →
      r = Except.error Status.NOT_FOUND) := by
  refine ⟨fun w hr => advance_notFound rs it w hfin hr,
          fun e w hr hne => advance_err rs it e w hfin hr hne, ?_⟩
  intro r w hr hfin2
  match r with
  | Except.ok u =>
    cases u
    rw [advance_ok rs it w hfin hr] at hfin2
    simp at hfin2
  | Except.error e =>
    by_cases he : e = Status.NOT_FOUND
    · rw [he]
    · rw [advance_err rs it e w hfin hr he] at hfin2
      simp at hfin2

/-- C3 witness: a Collaborator answering `NOT_FOUND` exhausts a fresh
iterator while `advance` reports success. -/
theorem advance_translates_notFound_propagates_errors_witness :
    advance (fun _ s => (Except.error Status.NOT_FOUND, s)) new_from_first =
      (Except.ok (), ⟨⟨[], zeroGuid⟩, ⟨[0], zeroGuid⟩, true⟩) :=
  (advance_translates_notFound_propagates_errors
    (fun _ s => (Except.error Status.NOT_FOUND, s)) new_from_first rfl).1
    ⟨[], zeroGuid⟩ rfl

/-- C4: advancing an exhausted iterator returns success, consults no
Collaborator (the result is the same for every Collaborator), leaves the
state unchanged, and stays such over any number of repetitions. -/
theorem advance_exhausted_idempotent_noop (rs rsB : Collaborator)
    (it : VariableNameIterator) (n : Nat) (h : it.finished = true) :
    advance rs it = (Except.ok (), it) ∧ advance rs it = advance rsB it ∧
    runIter rs it n = List.replicate n ((Except.ok () : CallResult), none) :=
  ⟨advance_of_finished rs it h,
   by rw [advance_of_finished rs it h, advance_of_finished rsB it h],
   runIter_of_finished rs it h n⟩

/-- C4 witness at a concrete exhausted iterator, three repetitions. -/
theorem advance_exhausted_idempotent_noop_witness :
    advance (storeCollab [idA]) ⟨idA, idB, true⟩ = (Except.ok (), ⟨idA, idB, true⟩) ∧
    advance (storeCollab [idA]) ⟨idA, idB, true⟩ =
      advance (fun _ s => (Except.error (Status.other 5), s)) ⟨idA, idB, true⟩ ∧
    runIter (storeCollab [idA]) ⟨idA, idB, true⟩ 3 =
      List.replicate 3 ((Except.ok () : CallResult), none) :=
  advance_exhausted_idempotent_noop (storeCollab [idA])
    (fun _ s => (Except.error (Status.other 5), s)) ⟨idA, idB, true⟩ 3 rfl

/-- C5 counterexample: on a freshly constructed iterator, before any call to
`advance`, `get` does not return nothing — it returns the sentinel anchor. -/
theorem get_fresh_iterator_not_none : get new_from_first ≠ none := by
  simp [VariableNameIterator.get, new_from_first]

/-- C5 (amended): `get` returns the current item whenever the iterator is not
exhausted — including before the first `advance`, where it returns the anchor
identifier (the sentinel for `new_from_first`, the caller-supplied identifier
for `new_from_variable`) — and returns nothing when exhausted. -/
theorem get_current_unless_exhausted :
    (∀ it : VariableNameIterator,
      get it = if it.finished then none else some it.current) ∧
    get new_from_first = some sentinelId ∧
    (∀ name ns : List Nat, get (new_from_variable name ns) = some ⟨name, ns⟩) :=
  ⟨fun _ => rfl, rfl, fun _ _ => rfl⟩

/-- C6: on a successful Collaborator call, `advance` succeeds, installs the
value the Collaborator wrote as the new `current`, moves the old `current`
buffer pair into the `next` scratch role (the swap — no fresh pair appears),
stays non-exhausted, and `get` afterwards returns exactly the newly-installed
value. -/
theorem advance_swaps_buffers_on_success (rs : Collaborator)
    (it : VariableNameIterator) (w : VariableIdentifier)
    (hfin : it.finished = false)
    (hok : rs it.current it.next = (Except.ok (), w)) :
    (advance rs it).1 = Except.ok () ∧
    (advance rs it).2.current = w ∧
    (advance rs it).2.next = it.current ∧
    (advance rs it).2.finished = false ∧
    get (advance rs it).2 = some w := by
  rw [advance_ok rs it w hfin hok]
  exact ⟨rfl, rfl, rfl, rfl, rfl⟩

/-- C6 witness: a Collaborator writing `idB` over the iterator positioned on
`idA` with scratch `sentinelId`. -/
theorem advance_swaps_buffers_on_success_witness :
    (advance (fun _ _ => (Except.ok (), idB)) ⟨idA, sentinelId, false⟩).1 =
      Except.ok () ∧
    (advance (fun _ _ => (Except.ok (), idB)) ⟨idA, sentinelId, false⟩).2.current =
      idB ∧
    (advance (fun _ _ => (Except.ok (), idB)) ⟨idA, sentinelId, false⟩).2.next =
      idA ∧
    (advance (fun _ _ => (Except.ok (), idB)) ⟨idA, sentinelId, false⟩).2.finished =
      false ∧
    get (advance (fun _ _ => (Except.ok (), idB)) ⟨idA, sentinelId, false⟩).2 =
      some idB :=
  advance_swaps_buffers_on_success (fun _ _ => (Except.ok (), idB))
    ⟨idA, sentinelId, false⟩ idB rfl rfl

/-- C7: `new_from_first` anchors the cursor at the sentinel — a name of
exactly one zero code unit with the all-zero 16-byte namespace — in a
non-exhausted state, and the first `advance` invokes the Collaborator with
exactly this sentinel as the previous key: its outcome is a function of the
Collaborator's value at `sentinelId` alone. -/
theorem new_from_first_sentinel_anchor :
    new_from_first.current.name = [0] ∧
    new_from_first.current.«namespace» = List.replicate 16 0 ∧
    new_from_first.finished = false ∧
    (∀ rs : Collaborator,
      advance rs new_from_first =
        if isNotFound (rs sentinelId new_from_first.next).1 then
          (Except.ok (), ⟨(rs sentinelId new_from_first.next).2, sentinelId, true⟩)
        else
          ((rs sentinelId new_from_first.next).1,
            ⟨(rs sentinelId new_from_first.next).2, sentinelId, false⟩)) :=
  ⟨rfl, rfl, rfl, fun _ => rfl⟩

/-- C8 counterexample: `advance` contains no retry loop — a Collaborator
answering `BUFFER_TOO_SMALL` has that status surfaced verbatim to the caller
of `advance`. -/
theorem advance_surfaces_bufferTooSmall :
    (advance (fun _ s => (Except.error Status.BUFFER_TOO_SMALL, s))
        new_from_first).1 =
      Except.error Status.BUFFER_TOO_SMALL := rfl

/-- C8 (amended): `advance` performs no buffer growth and no retry: a
`BUFFER_TOO_SMALL` status from the Collaborator is propagated to the caller
exactly like any other fatal error, in a single call; growth-and-retry, if it
happens at all, happens inside the Collaborator binding before it returns. -/
theorem advance_no_retry_on_bufferTooSmall (rs : Collaborator)
    (it : VariableNameIterator) (w : VariableIdentifier)
    (hfin : it.finished = false)
    (hr : rs it.current it.next = (Except.error Status.BUFFER_TOO_SMALL, w)) :
    advance rs it =
      (Except.error Status.BUFFER_TOO_SMALL, ⟨w, it.current, false⟩) :=
  advance_err rs it Status.BUFFER_TOO_SMALL w hfin hr (by decide)

/-- C8 amended-claim witness at a concrete mid-enumeration iterator. -/
theorem advance_no_retry_on_bufferTooSmall_witness :
    advance (fun _ s => (Except.error Status.BUFFER_TOO_SMALL, s))
        ⟨idA, idB, false⟩ =
      (Except.error Status.BUFFER_TOO_SMALL, ⟨idB, idA, false⟩) :=
  advance_no_retry_on_bufferTooSmall
    (fun _ s => (Except.error Status.BUFFER_TOO_SMALL, s)) ⟨idA, idB, false⟩
    idB rfl rfl

/-- C9: a fetch reporting `BufferTooSmall { data_size, attributes }` is
followed, on the unmodified store, by a `Success` fetch with a buffer of
capacity `data_size` reporting the same `data_size` and the same
`attributes`. -/
theorem bufferTooSmall_size_matches_success
    (store : VariableIdentifier → Option (List Nat × Nat)) (name ns : List Nat)
    (cap ds attrs : Nat)
    (h : get_variable store name ns cap =
      GetVariableStatus.BufferTooSmall ds attrs) :
    get_variable store name ns ds = GetVariableStatus.Success ds attrs := by
  cases hst : store ⟨name, ns⟩ with
  | none => simp [get_variable, hst] at h
  | some p =>
    obtain ⟨data, a⟩ := p
    by_cases hlt : cap < data.length
    · simp only [get_variable, hst, if_pos hlt] at h
      injection h with h1 h2
      subst h1
      subst h2
      simp [get_variable, hst]
    · simp [get_variable, hst, if_neg hlt] at h

/-- A one-variable store for the C9 witness: `idA` holds three data bytes
with attributes `7`. -/
def demoStore : VariableIdentifier → Option (List Nat × Nat) :=
  fun v => if v = idA then some ([1, 2, 3], 7) else none

/-- C9 witness: probing `idA` with capacity 0 reports `BufferTooSmall 3 7`;
refetching with capacity 3 yields `Success 3 7`. -/
theorem bufferTooSmall_size_matches_success_witness :
    get_variable demoStore idA.name idA.«namespace» 3 =
      GetVariableStatus.Success 3 7 :=
  bufferTooSmall_size_matches_success demoStore idA.name idA.«namespace» 0 3 7 rfl

/-- C10: the swap happens before the status is inspected, so after a fatal
(non-`NOT_FOUND`) error `advance` returns that error, the iterator is not
exhausted, the old `current` sits in the scratch slot, and `get` returns the
contents the failed Collaborator call left in the output buffers. -/
theorem advance_fatal_error_not_exhausted (rs : Collaborator)
    (it : VariableNameIterator) (e : Status) (w : VariableIdentifier)
    (hfin : it.finished = false)
    (hr : rs it.current it.next = (Except.error e, w))
    (hne : e ≠ Status.NOT_FOUND) :
    (advance rs it).1 = Except.error e ∧
    (advance rs it).2.finished = false ∧
    (advance rs it).2.next = it.current ∧
    get (advance rs it).2 = some w := by
  rw [advance_err rs it e w hfin hr hne]
  exact ⟨rfl, rfl, rfl, rfl⟩

/-- C10 witness: after a fatal error while positioned on `idA`, `get` returns
the Collaborator-written scratch contents, which differ from the last yielded
identifier `idA`. -/
theorem advance_fatal_error_not_exhausted_witness :
    ((advance (fun _ _ => (Except.error (Status.other 9), ⟨[9], zeroGuid⟩))
        ⟨idA, idB, false⟩).1 = Except.error (Status.other 9) ∧
      (advance (fun _ _ => (Except.error (Status.other 9), ⟨[9], zeroGuid⟩))
        ⟨idA, idB, false⟩).2.finished = false ∧
      (advance (fun _ _ => (Except.error (Status.other 9), ⟨[9], zeroGuid⟩))
        ⟨idA, idB, false⟩).2.next = idA ∧
      get (advance (fun _ _ => (Except.error (Status.other 9), ⟨[9], zeroGuid⟩))
        ⟨idA, idB, false⟩).2 = some ⟨[9], zeroGuid⟩) ∧
    some (⟨[9], zeroGuid⟩ : VariableIdentifier) ≠ some idA :=
  ⟨advance_fatal_error_not_exhausted
      (fun _ _ => (Except.error (Status.other 9), ⟨[9], zeroGuid⟩))
      ⟨idA, idB, false⟩ (Status.other 9) ⟨[9], zeroGuid⟩ rfl rfl (by decide),
    by decide⟩

end VariableServices
